import Mathlib

/-!
Shallow embedding of the per-monitor dimming controller of MonitorNap
(`monitornap.py`, class `MonitorController` and its helpers).

Python numerics are modelled over exact rationals (`ℚ`) and integers (`ℤ`):
`int(x)` is truncation toward zero (`pyInt`), `round(x)` is round-half-to-even
(`pyRound`).  The Qt event loop is modelled by making each timer callback an
explicit state-transition function; the external world (DDC/CI hardware,
geometry enumeration) is an explicit `World` record threaded through the
transitions.  Hardware reads/writes may fail, which the source catches and
swallows; this is modelled by the `readOk`/`writeOk` flags of `World`.
-/

namespace MonitorNap

/-- Python `int(q)` on a numeric value: truncation toward zero. -/
def pyInt (q : ℚ) : ℤ := if q < 0 then -⌊-q⌋ else ⌊q⌋

/-- Python `abs(q)`. -/
def pyAbs (q : ℚ) : ℚ := if q < 0 then -q else q

/-- Python 3 `round(q)` to an integer: round half to even (banker's rounding). -/
def pyRound (q : ℚ) : ℤ :=
  let f := ⌊q⌋
  let r := q - f
  if r < 1/2 then f
  else if 1/2 < r then f + 1
  else if f % 2 = 0 then f else f + 1

/-- Per-monitor configuration (`monitor_cfg` dictionary keys used by the controller). -/
structure MonitorCfg where
  enable_hardware_dimming : Bool
  enable_software_dimming : Bool
  hardware_dimming_level : ℤ
  software_dimming_level : ℚ

/-- Global configuration (`global_cfg` dictionary keys used by the controller). -/
structure GlobalCfg where
  inactivity_limit : ℚ
  overlay_fade_time : ℚ
  overlay_fade_steps : ℤ
  awake_mode : Bool

/-- The external environment: the DDC/CI enumeration (`get_monitors()`), the
geometry enumeration (`screeninfo.get_monitors()`), the current hardware
luminance, and whether luminance reads/writes currently succeed. -/
structure World where
  ddcCount : ℕ
  displays : List (ℤ × ℤ × ℤ × ℤ)
  hwLum : ℤ
  readOk : Bool
  writeOk : Bool

/-- Runtime state of one `MonitorController`, plus its overlay window and the
fade-timer bookkeeping fields the class keeps (`fade_timer` active flag,
`current_fade_step`, `fade_steps`, `fade_start`, `fade_target`,
`fade_step_size`, and the timer interval). -/
structure Ctl where
  is_dimmed : Bool
  restore_in_progress : Bool
  last_active : ℚ
  display_index : ℤ
  ddc_index : ℤ
  hasMonitor : Bool
  original_brightness : Option ℤ
  left : ℤ
  top : ℤ
  width : ℤ
  height : ℤ
  overlayShown : Bool
  overlayOpacity : ℚ
  fadeActive : Bool
  current_fade_step : ℤ
  fade_steps : ℤ
  fade_start : ℤ
  fade_target : ℤ
  fade_step_size : ℚ
  fade_interval_ms : ℤ

/-- `MonitorController.set_brightness`: writes the luminance via DDC/CI; a
missing monitor object returns early and a failed write is caught and only
logged, so the world is unchanged in both cases. -/
def set_brightness (st : Ctl) (w : World) (value : ℤ) : World :=
  if st.hasMonitor then (if w.writeOk then { w with hwLum := value } else w) else w

/-- `MonitorController._update_geometry_from_system`: looks up
`display_index` in the geometry enumeration; out-of-range indices fall back to
the default rectangle `(0, 0, 800, 600)`. -/
def update_geometry_from_system (st : Ctl) (w : World) : Ctl :=
  if 0 ≤ st.display_index then
    match w.displays.get? st.display_index.toNat with
    | some m => { st with left := m.1, top := m.2.1, width := m.2.2.1, height := m.2.2.2 }
    | none => { st with left := 0, top := 0, width := 800, height := 600 }
  else { st with left := 0, top := 0, width := 800, height := 600 }

/-- `MonitorController.set_indices`: clamps both indices to be nonnegative,
re-probes the DDC/CI channel (a failed probe leaves `original_brightness` as
`None`), and refreshes the geometry. -/
def set_indices (display_index ddc_index : ℤ) (st : Ctl) (w : World) : Ctl :=
  let di := max 0 display_index
  let hi := max 0 ddc_index
  let inRange : Bool := decide (0 ≤ hi ∧ hi < (w.ddcCount : ℤ))
  let ob : Option ℤ := if inRange ∧ w.readOk then some w.hwLum else none
  let st := { st with display_index := di, ddc_index := hi,
                      hasMonitor := inRange, original_brightness := ob }
  update_geometry_from_system st w

/-- One firing of `MonitorController._fade_overlay_step` on the overlay
opacity: computes the next value, clamps it to `target` when the step would
reach or cross it, and reports whether a further step is scheduled (the chain
continues while the applied value is more than `0.01` away from `target`). -/
def fadeOverlayTick (current target step_opacity : ℚ) : ℚ × Bool :=
  let nv0 := current + step_opacity
  let nv := if (0 < step_opacity ∧ target ≤ nv0) ∨ (step_opacity < 0 ∧ nv0 ≤ target)
            then target else nv0
  (nv, decide (1/100 < pyAbs (nv - target)))

/-- The full `QTimer.singleShot` chain spun by `_fade_overlay_step`, run with
explicit fuel: returns the list of opacities applied (in order) and whether
the chain terminated (no further step scheduled) within the fuel. -/
def overlayRun : ℕ → ℚ → ℚ → ℚ → List ℚ × Bool
  | 0, _, _, _ => ([], false)
  | fuel + 1, current, target, step_opacity =>
    let t := fadeOverlayTick current target step_opacity
    if t.2 then
      let r := overlayRun fuel t.1 target step_opacity
      (t.1 :: r.1, r.2)
    else ([t.1], true)

/-- The parameter computation of `MonitorController.fade_overlay`: the
effective step count, the per-step opacity delta, and the per-step delay in
milliseconds.  A non-positive configured step count becomes `1`; a fade toward
a lower opacity (a restore) switches to the fast profile
(`duration × 0.05` floored at `0.01` s, step count capped at `3`). -/
def fade_overlay_params (g : GlobalCfg) (current target_opacity : ℚ) : ℤ × ℚ × ℤ :=
  let steps0 := g.overlay_fade_steps
  let steps1 := if steps0 ≤ 0 then 1 else steps0
  let total0 := g.overlay_fade_time
  let total_time := if target_opacity < current then max (1/100) (total0 * (5/100)) else total0
  let steps := if target_opacity < current then min steps1 3 else steps1
  let step_opacity := (target_opacity - current) / (steps : ℚ)
  let step_delay_ms := max 1 (pyInt ((total_time / (steps : ℚ)) * 1000))
  (steps, step_opacity, step_delay_ms)

/-- `MonitorController.fade_overlay` as executed synchronously inside the
caller: it computes the fade parameters and immediately runs the first
`_fade_overlay_step` (the remaining steps are deferred `QTimer.singleShot`
callbacks).  When the chain already ends on this first step and the target is
within `0.01` of zero, the overlay is hidden. -/
def fade_overlay_first (g : GlobalCfg) (st : Ctl) (target_opacity : ℚ) : Ctl :=
  let p := fade_overlay_params g st.overlayOpacity target_opacity
  let t := fadeOverlayTick st.overlayOpacity target_opacity p.2.1
  let st := { st with overlayOpacity := t.1 }
  if t.2 then st
  else if pyAbs target_opacity < 1/100 then { st with overlayShown := false } else st

/-- `MonitorController.fade_hardware`: rejected while a fade is in flight;
otherwise reads a fresh luminance as `start` (falling back to
`original_brightness`, then to `100`), computes the dim or restore target,
derives the step size and timer interval (restores use the fast profile:
`duration × 0.05` floored at `0.01` s and at most `3` steps), and starts the
fade timer.  The world is untouched: no brightness is applied yet. -/
def fade_hardware (g : GlobalCfg) (cfg : MonitorCfg) (down : Bool) (st : Ctl) (w : World) : Ctl :=
  if st.restore_in_progress then st
  else
    let st := { st with restore_in_progress := true }
    let start : ℤ :=
      if st.hasMonitor ∧ w.readOk then w.hwLum
      else match st.original_brightness with
           | some ob => ob
           | none => 100
    let target : ℤ :=
      if down then
        let level := max 0 (min 100 cfg.hardware_dimming_level)
        max 0 (min 100 (pyRound ((start : ℚ) * (1 - (level : ℚ) / 100))))
      else match st.original_brightness with
           | some ob => ob
           | none => start
    let steps0 := g.overlay_fade_steps
    let duration0 := g.overlay_fade_time
    let duration := if down then duration0 else max (1/100) (duration0 * (5/100))
    let steps1 := if down then steps0 else min steps0 3
    let steps := if steps1 ≤ 0 then 1 else steps1
    let fss : ℚ := ((target : ℚ) - (start : ℚ)) / (steps : ℚ)
    let interval := pyInt ((duration / (steps : ℚ)) * 1000)
    { st with fade_step_size := fss, fade_interval_ms := interval,
              current_fade_step := 0, fade_steps := steps,
              fade_start := start, fade_target := target, fadeActive := true }

/-- One firing of `MonitorController._do_fade`: advances the step counter,
computes the next value, and either stops the timer applying exactly
`fade_target` (when the step would reach or cross the target, or the step
budget is exhausted) or applies the intermediate value.  Returns the new
state, the new world and the luminance value passed to `set_brightness`. -/
def do_fade (st : Ctl) (w : World) : Ctl × World × ℤ :=
  let k := st.current_fade_step + 1
  let new_value : ℚ := (st.fade_start : ℚ) + st.fade_step_size * (k : ℚ)
  if (0 < st.fade_step_size ∧ (st.fade_target : ℚ) ≤ new_value) ∨
     (st.fade_step_size < 0 ∧ new_value ≤ (st.fade_target : ℚ)) ∨
     st.fade_steps ≤ k then
    let applied := pyInt (st.fade_target : ℚ)
    let st' := { st with current_fade_step := k, fadeActive := false,
                         restore_in_progress := false }
    (st', set_brightness st w applied, applied)
  else
    let applied := pyInt new_value
    ({ st with current_fade_step := k }, set_brightness st w applied, applied)

/-- The repeated firing of the hardware fade timer, run with explicit fuel:
returns the list of luminance values applied (in order) together with the
final controller state and world.  The run ends as soon as the timer is
stopped (`fadeActive = false`). -/
def hwFadeRun : ℕ → Ctl → World → List ℤ × Ctl × World
  | 0, st, w => ([], st, w)
  | fuel + 1, st, w =>
    if st.fadeActive then
      let r := do_fade st w
      let rest := hwFadeRun fuel r.1 r.2.1
      (r.2.2 :: rest.1, rest.2)
    else ([], st, w)

/-- `MonitorController.immediate_restore`: stops any active fade timer,
immediately writes `original_brightness` back (when the monitor object and the
cached value exist; a failed write is swallowed by `set_brightness`), hides
the overlay, resets its opacity to `0.0` and clears `is_dimmed`. -/
def immediate_restore (st : Ctl) (w : World) : Ctl × World :=
  let st := if st.fadeActive then { st with fadeActive := false } else st
  let w := if st.hasMonitor ∧ st.original_brightness.isSome then
             set_brightness st w (st.original_brightness.getD 0)
           else w
  let st := { st with overlayShown := false, overlayOpacity := 0 }
  ({ st with is_dimmed := false }, w)

/-- `MonitorController.restore_dim`: clears `is_dimmed` and performs an
immediate (non-faded) restore of both channels. -/
def restore_dim (st : Ctl) (w : World) : Ctl × World :=
  immediate_restore { st with is_dimmed := false } w

/-- `MonitorController.dim`: no-op when already dimmed; otherwise marks the
controller dimmed, shows the overlay and starts the software fade toward the
clamped `software_dimming_level` (when software dimming is enabled), and
starts the hardware dim-down fade (when hardware dimming is enabled and
`original_brightness` is known).  Only timers are started, so the world is
unchanged. -/
def dim (cfg : MonitorCfg) (g : GlobalCfg) (st : Ctl) (w : World) : Ctl :=
  if st.is_dimmed then st
  else
    let st := { st with is_dimmed := true }
    let st :=
      if cfg.enable_software_dimming then
        let target_opacity := max 0 (min 1 cfg.software_dimming_level)
        fade_overlay_first g { st with overlayShown := true } target_opacity
      else st
    if cfg.enable_hardware_dimming ∧ st.original_brightness.isSome then
      fade_hardware g cfg true st w
    else st

/-- `MonitorController.check_inactivity`: the 1 Hz tick.  `active` is the
result of `is_monitor_active()` and `now` the current time.  While awake mode
is on, a dimmed controller is restored and nothing else happens; otherwise
presence refreshes `last_active` (restoring if dimmed) and absence past the
inactivity limit dims. -/
def check_inactivity (cfg : MonitorCfg) (g : GlobalCfg) (active : Bool) (now : ℚ)
    (st : Ctl) (w : World) : Ctl × World :=
  if g.awake_mode then
    if st.is_dimmed then restore_dim st w else (st, w)
  else if active then
    let st := { st with last_active := now }
    if st.is_dimmed then restore_dim st w else (st, w)
  else
    let idle_time := now - st.last_active
    if g.inactivity_limit ≤ idle_time ∧ st.is_dimmed = false then
      (dim cfg g st w, w)
    else (st, w)

/-! ### Arithmetic helper lemmas -/

lemma pyInt_intCast (n : ℤ) : pyInt (n : ℚ) = n := by
  unfold pyInt
  split
  · rw [← Int.cast_neg, Int.floor_intCast]; ring
  · exact Int.floor_intCast n

lemma pyInt_le_of_le {n : ℤ} {q : ℚ} (h : q ≤ (n : ℚ)) : pyInt q ≤ n := by
  unfold pyInt
  split
  · have : -n ≤ ⌊-q⌋ := Int.le_floor.mpr (by push_cast; linarith)
    omega
  · calc ⌊q⌋ ≤ ⌊(n : ℚ)⌋ := Int.floor_le_floor h
      _ = n := Int.floor_intCast n

lemma le_pyInt_of_le {n : ℤ} {q : ℚ} (h : (n : ℚ) ≤ q) : n ≤ pyInt q := by
  unfold pyInt
  split
  · have : ⌊-q⌋ ≤ -n := by
      calc ⌊-q⌋ ≤ ⌊((-n : ℤ) : ℚ)⌋ := Int.floor_le_floor (by push_cast; linarith)
        _ = -n := Int.floor_intCast _
    omega
  · exact Int.le_floor.mpr h

lemma pyInt_cast_le {q : ℚ} (h : 0 ≤ q) : (pyInt q : ℚ) ≤ q := by
  unfold pyInt
  rw [if_neg (by linarith)]
  exact Int.floor_le q

/-! ### C10 -/

/-- C10: from every controller state and every hardware condition (including a
failing luminance write), `immediate_restore` terminates with `is_dimmed`
false, the overlay hidden, and the overlay opacity `0.0`. -/
theorem immediate_restore_postcondition (st : Ctl) (w : World) :
    (immediate_restore st w).1.is_dimmed = false ∧
    (immediate_restore st w).1.overlayShown = false ∧
    (immediate_restore st w).1.overlayOpacity = 0 := by
  unfold immediate_restore
  split <;> simp

lemma update_geometry_preserves_indices (st : Ctl) (w : World) :
    (update_geometry_from_system st w).display_index = st.display_index ∧
    (update_geometry_from_system st w).ddc_index = st.ddc_index ∧
    (update_geometry_from_system st w).original_brightness = st.original_brightness := by
  unfold update_geometry_from_system
  split
  · split <;> simp
  · simp

/-! ### C8 -/

/-- C8: `set_indices` is a total function of its integer arguments (the source
catches the probe failure, so nothing is raised); negative `display_index` or
`ddc_index` inputs are clamped to `0`, and a failed hardware probe (index out
of the DDC enumeration's range, or a failing read) leaves
`original_brightness` as `None`. -/
theorem set_indices_clamps_and_probes (d h : ℤ) (st : Ctl) (w : World) :
    (set_indices d h st w).display_index = max 0 d ∧
    (set_indices d h st w).ddc_index = max 0 h ∧
    (set_indices d h st w).original_brightness =
      (if max 0 h < (w.ddcCount : ℤ) ∧ w.readOk = true then some w.hwLum else none) := by
  have h0 : (0 : ℤ) ≤ max 0 h := le_max_left 0 h
  have hup := fun st' => update_geometry_preserves_indices st' w
  simp only [set_indices]
  refine ⟨((hup _).1).trans ?_, ((hup _).2.1).trans ?_, ((hup _).2.2).trans ?_⟩
  · rfl
  · rfl
  · simp [h0]

/-! ### C9 -/

/-- C9: when `display_index` is outside the range of the geometry enumeration
(negative or at least the number of enumerated displays), the geometry update
does not fail and installs the default rectangle: origin `(0, 0)` with the
nominal `800 × 600` size. -/
theorem geometry_out_of_range_default (st : Ctl) (w : World)
    (h : ¬ (0 ≤ st.display_index ∧ st.display_index < (w.displays.length : ℤ))) :
    (update_geometry_from_system st w).left = 0 ∧
    (update_geometry_from_system st w).top = 0 ∧
    (update_geometry_from_system st w).width = 800 ∧
    (update_geometry_from_system st w).height = 600 := by
  unfold update_geometry_from_system
  by_cases hnn : 0 ≤ st.display_index
  · have hlen : w.displays.length ≤ st.display_index.toNat := by omega
    rw [if_pos hnn]
    rw [List.get?_eq_none.mpr hlen]
    simp
  · rw [if_neg hnn]
    simp

/-- C9 witness: index `5` against a two-display enumeration falls back to the
default rectangle. -/
theorem geometry_out_of_range_default_witness :
    (update_geometry_from_system
      { is_dimmed := false, restore_in_progress := false, last_active := 0,
        display_index := 5, ddc_index := 0, hasMonitor := true,
        original_brightness := some 100, left := 1, top := 2, width := 3, height := 4,
        overlayShown := false, overlayOpacity := 0, fadeActive := false,
        current_fade_step := 0, fade_steps := 0, fade_start := 0, fade_target := 0,
        fade_step_size := 0, fade_interval_ms := 0 }
      { ddcCount := 2, displays := [(0, 0, 1920, 1080), (1920, 0, 1920, 1080)],
        hwLum := 100, readOk := true, writeOk := true }).left = 0 := by
  exact (geometry_out_of_range_default _ _ (by decide)).1

/-! ### C2 -/

/-- C2: on every tick of `check_inactivity` while awake mode is on, the
controller ends the tick not dimmed: a dimmed controller is restored to
Active on that very tick, and a non-dimmed controller never enters the dimmed
state. -/
theorem awake_mode_never_dimmed (cfg : MonitorCfg) (g : GlobalCfg) (active : Bool)
    (now : ℚ) (st : Ctl) (w : World) (h : g.awake_mode = true) :
    (check_inactivity cfg g active now st w).1.is_dimmed = false := by
  unfold check_inactivity
  rw [h]
  simp only [if_true]
  split
  · unfold restore_dim immediate_restore
    split <;> simp
  · simp_all

/-- C2 witness: a concrete dimmed controller under awake mode is restored by
the tick. -/
theorem awake_mode_never_dimmed_witness :
    (check_inactivity
      { enable_hardware_dimming := true, enable_software_dimming := true,
        hardware_dimming_level := 30, software_dimming_level := 1/2 }
      { inactivity_limit := 10, overlay_fade_time := 1/2, overlay_fade_steps := 10,
        awake_mode := true }
      false 100
      { is_dimmed := true, restore_in_progress := false, last_active := 0,
        display_index := 0, ddc_index := 0, hasMonitor := true,
        original_brightness := some 100, left := 0, top := 0, width := 1920, height := 1080,
        overlayShown := true, overlayOpacity := 1/2, fadeActive := false,
        current_fade_step := 0, fade_steps := 0, fade_start := 0, fade_target := 0,
        fade_step_size := 0, fade_interval_ms := 0 }
      { ddcCount := 1, displays := [(0, 0, 1920, 1080)], hwLum := 70,
        readOk := true, writeOk := true }).1.is_dimmed = false :=
  awake_mode_never_dimmed _ _ _ _ _ _ rfl

/-! ### Preservation helpers shared by several claims -/

lemma fade_overlay_first_preserves (g : GlobalCfg) (st : Ctl) (t : ℚ) :
    (fade_overlay_first g st t).hasMonitor = st.hasMonitor ∧
    (fade_overlay_first g st t).original_brightness = st.original_brightness ∧
    (fade_overlay_first g st t).is_dimmed = st.is_dimmed ∧
    (fade_overlay_first g st t).restore_in_progress = st.restore_in_progress ∧
    (fade_overlay_first g st t).fade_start = st.fade_start := by
  simp only [fade_overlay_first]
  split_ifs <;> simp

lemma fade_hardware_preserves (g : GlobalCfg) (cfg : MonitorCfg) (down : Bool)
    (st : Ctl) (w : World) :
    (fade_hardware g cfg down st w).hasMonitor = st.hasMonitor ∧
    (fade_hardware g cfg down st w).original_brightness = st.original_brightness ∧
    (fade_hardware g cfg down st w).overlayOpacity = st.overlayOpacity := by
  simp only [fade_hardware]
  split_ifs <;> simp

lemma dim_preserves_hw_config (cfg : MonitorCfg) (g : GlobalCfg) (st : Ctl) (w : World) :
    (dim cfg g st w).hasMonitor = st.hasMonitor ∧
    (dim cfg g st w).original_brightness = st.original_brightness := by
  simp only [dim]
  split
  · exact ⟨rfl, rfl⟩
  · split
    · rename_i hsw
      split
      · constructor
        · exact ((fade_hardware_preserves _ _ _ _ _).1).trans
            (fade_overlay_first_preserves _ _ _).1
        · exact ((fade_hardware_preserves _ _ _ _ _).2.1).trans
            (fade_overlay_first_preserves _ _ _).2.1
      · exact ⟨(fade_overlay_first_preserves _ _ _).1,
          (fade_overlay_first_preserves _ _ _).2.1⟩
    · split
      · exact ⟨(fade_hardware_preserves _ _ _ _ _).1,
          (fade_hardware_preserves _ _ _ _ _).2.1⟩
      · exact ⟨rfl, rfl⟩

lemma restore_dim_spec (st : Ctl) (w : World) :
    (restore_dim st w).1.is_dimmed = false ∧
    (restore_dim st w).1.fadeActive = false ∧
    (restore_dim st w).1.overlayShown = false ∧
    (restore_dim st w).1.overlayOpacity = 0 ∧
    (restore_dim st w).1.last_active = st.last_active ∧
    (restore_dim st w).2.hwLum =
      (if st.hasMonitor = true ∧ st.original_brightness.isSome = true ∧ w.writeOk = true
       then st.original_brightness.getD 0 else w.hwLum) := by
  unfold restore_dim immediate_restore set_brightness
  rcases hm : st.hasMonitor <;> rcases hb : st.original_brightness <;>
    rcases hw : w.writeOk <;> rcases hf : st.fadeActive <;> simp [hm, hb, hw, hf]

/-! ### C7 -/

/-- C7 counterexample: `restore_dim` never touches `last_active`, so the claim
that it resets the idle timer (`lastActiveAt = now`) fails at any current time
different from the stored timestamp — here `last_active = 5` while the tick
time is `6`. -/
theorem restore_dim_no_timer_reset :
    ((restore_dim
      { is_dimmed := true, restore_in_progress := false, last_active := 5,
        display_index := 0, ddc_index := 0, hasMonitor := true,
        original_brightness := some 100, left := 0, top := 0, width := 1920, height := 1080,
        overlayShown := true, overlayOpacity := 1/2, fadeActive := true,
        current_fade_step := 3, fade_steps := 10, fade_start := 100, fade_target := 70,
        fade_step_size := -3, fade_interval_ms := 50 }
      { ddcCount := 1, displays := [(0, 0, 1920, 1080)], hwLum := 85,
        readOk := true, writeOk := true }).1.last_active = 5) ∧ (5 : ℚ) ≠ 6 := by
  constructor
  · simp [restore_dim, immediate_restore, set_brightness]
  · norm_num

/-- C7 amended: calling `restore_dim` from any state forces the controller
into Active (`is_dimmed = false`) with an instant, non-faded restore of both
channels — the fade timer is stopped, the overlay is hidden at opacity `0`,
and the hardware luminance is written back to the cached original brightness
exactly when the monitor handle, the cached value and a working write channel
are all available — but it leaves `last_active` unchanged (the idle timer is
reset by its callers, not by `restore_dim` itself). -/
theorem restore_dim_forces_active (st : Ctl) (w : World) :
    (restore_dim st w).1.is_dimmed = false ∧
    (restore_dim st w).1.fadeActive = false ∧
    (restore_dim st w).1.overlayShown = false ∧
    (restore_dim st w).1.overlayOpacity = 0 ∧
    (restore_dim st w).1.last_active = st.last_active ∧
    (restore_dim st w).2.hwLum =
      (if st.hasMonitor = true ∧ st.original_brightness.isSome = true ∧ w.writeOk = true
       then st.original_brightness.getD 0 else w.hwLum) :=
  restore_dim_spec st w

/-! ### C1 -/

/-- C1 counterexample: with hardware dimming enabled, a cached original
brightness of `100` and a current (out-of-band adjusted) luminance of `80`,
`dim` followed immediately by `restore_dim` leaves the hardware luminance at
`100`, not at its pre-dim value `80`: the restore targets the cached
`original_brightness`, not the luminance read just before the dim. -/
theorem dim_restore_not_roundtrip :
    ((restore_dim
       (dim
         { enable_hardware_dimming := true, enable_software_dimming := true,
           hardware_dimming_level := 30, software_dimming_level := 1/2 }
         { inactivity_limit := 10, overlay_fade_time := 1/2, overlay_fade_steps := 10,
           awake_mode := false }
         { is_dimmed := false, restore_in_progress := false, last_active := 0,
           display_index := 0, ddc_index := 0, hasMonitor := true,
           original_brightness := some 100, left := 0, top := 0, width := 1920,
           height := 1080, overlayShown := false, overlayOpacity := 0,
           fadeActive := false, current_fade_step := 0, fade_steps := 0,
           fade_start := 0, fade_target := 0, fade_step_size := 0,
           fade_interval_ms := 0 }
         { ddcCount := 1, displays := [(0, 0, 1920, 1080)], hwLum := 80,
           readOk := true, writeOk := true })
       { ddcCount := 1, displays := [(0, 0, 1920, 1080)], hwLum := 80,
         readOk := true, writeOk := true }).2.hwLum = 100) ∧ (100 : ℤ) ≠ 80 := by
  constructor
  · norm_num [dim, fade_overlay_first, fade_overlay_params, fadeOverlayTick, pyAbs,
      fade_hardware, pyRound, pyInt, restore_dim, immediate_restore, set_brightness]
  · decide

/-- C1 amended: `dim` followed immediately by `restore_dim` leaves the overlay
opacity and the hardware luminance at their pre-dim values, provided the
pre-dim opacity was `0` (the restore always forces opacity `0`) and the
pre-dim luminance agreed with the cached `original_brightness` whenever the
restore actually writes (monitor handle present, cached value known, write
channel working) — the restore writes the cached original, not the pre-dim
reading. -/
theorem dim_restore_roundtrip (cfg : MonitorCfg) (g : GlobalCfg) (st : Ctl) (w : World)
    (hop : st.overlayOpacity = 0)
    (hlum : st.hasMonitor = true → st.original_brightness.isSome = true →
      w.writeOk = true → st.original_brightness = some w.hwLum) :
    (restore_dim (dim cfg g st w) w).1.overlayOpacity = st.overlayOpacity ∧
    (restore_dim (dim cfg g st w) w).2.hwLum = w.hwLum := by
  have hpres := dim_preserves_hw_config cfg g st w
  have hrest := restore_dim_spec (dim cfg g st w) w
  refine ⟨hrest.2.2.2.1.trans hop.symm, ?_⟩
  rw [hrest.2.2.2.2.2, hpres.1, hpres.2]
  split
  · rename_i hc
    rw [hlum hc.1 hc.2.1 hc.2.2]
    rfl
  · rfl

/-- C1 witness: when the pre-dim luminance equals the cached original (`80`)
and the overlay starts fully transparent, the dim/restore pair is a round
trip. -/
theorem dim_restore_roundtrip_witness :
    (restore_dim
      (dim
        { enable_hardware_dimming := true, enable_software_dimming := true,
          hardware_dimming_level := 30, software_dimming_level := 1/2 }
        { inactivity_limit := 10, overlay_fade_time := 1/2, overlay_fade_steps := 10,
          awake_mode := false }
        { is_dimmed := false, restore_in_progress := false, last_active := 0,
          display_index := 0, ddc_index := 0, hasMonitor := true,
          original_brightness := some 80, left := 0, top := 0, width := 1920,
          height := 1080, overlayShown := false, overlayOpacity := 0,
          fadeActive := false, current_fade_step := 0, fade_steps := 0,
          fade_start := 0, fade_target := 0, fade_step_size := 0,
          fade_interval_ms := 0 }
        { ddcCount := 1, displays := [(0, 0, 1920, 1080)], hwLum := 80,
          readOk := true, writeOk := true })
      { ddcCount := 1, displays := [(0, 0, 1920, 1080)], hwLum := 80,
        readOk := true, writeOk := true }).2.hwLum = 80 :=
  (dim_restore_roundtrip _ _ _ _ rfl (fun _ _ _ => rfl)).2

/-! ### C4 -/

/-- Modelled from the spec's formula language: `clamp(x, lo, hi)`. -/
def clamp (x lo hi : ℤ) : ℤ := max lo (min hi x)

/-- The spec-side hardware dim target: `clamp(round(start*(1-level/100)), 0, 100)`. -/
def specDimTarget (start level : ℤ) : ℤ :=
  clamp (pyRound ((start : ℚ) * (1 - (level : ℚ) / 100))) 0 100

lemma fade_hardware_start_target (g : GlobalCfg) (cfg : MonitorCfg) (st : Ctl) (w : World)
    (hr : st.restore_in_progress = false) :
    (fade_hardware g cfg true st w).fade_start =
      (if st.hasMonitor = true ∧ w.readOk = true then w.hwLum
       else match st.original_brightness with | some ob => ob | none => 100) ∧
    (fade_hardware g cfg true st w).fade_target =
      max 0 (min 100 (pyRound
        (((if st.hasMonitor = true ∧ w.readOk = true then w.hwLum
           else match st.original_brightness with | some ob => ob | none => 100) : ℚ) *
          (1 - ((max 0 (min 100 cfg.hardware_dimming_level) : ℤ) : ℚ) / 100)))) := by
  rcases hob : st.original_brightness with _ | ob <;>
    rcases hmon : st.hasMonitor <;> rcases hrd : w.readOk <;>
      simp [fade_hardware, hr, hob, hmon, hrd]

/-- C4: for every `level ∈ [1,100]` and `start ∈ [0,100]`, when a dim-down
hardware fade starts from a successful fresh read of `start`, the computed
`fade_target` equals the spec formula `clamp(round(start*(1-level/100)), 0, 100)`. -/
theorem fade_hardware_dim_target (g : GlobalCfg) (cfg : MonitorCfg) (st : Ctl) (w : World)
    (start level : ℤ)
    (h1 : 1 ≤ level) (h2 : level ≤ 100) (h3 : 0 ≤ start) (h4 : start ≤ 100)
    (hlev : cfg.hardware_dimming_level = level)
    (hr : st.restore_in_progress = false)
    (hm : st.hasMonitor = true) (hread : w.readOk = true) (hlum : w.hwLum = start) :
    (fade_hardware g cfg true st w).fade_target = specDimTarget start level := by
  rw [(fade_hardware_start_target g cfg st w hr).2]
  rw [if_pos ⟨hm, hread⟩, hlum, hlev]
  have hcl : max 0 (min 100 level) = level := by omega
  rw [hcl]
  rfl

/-- C4 witness: `start = 80`, `level = 30` gives target `56` on both sides. -/
theorem fade_hardware_dim_target_witness :
    (fade_hardware
      { inactivity_limit := 10, overlay_fade_time := 1/2, overlay_fade_steps := 10,
        awake_mode := false }
      { enable_hardware_dimming := true, enable_software_dimming := true,
        hardware_dimming_level := 30, software_dimming_level := 1/2 }
      true
      { is_dimmed := true, restore_in_progress := false, last_active := 0,
        display_index := 0, ddc_index := 0, hasMonitor := true,
        original_brightness := some 100, left := 0, top := 0, width := 1920, height := 1080,
        overlayShown := true, overlayOpacity := 0, fadeActive := false,
        current_fade_step := 0, fade_steps := 0, fade_start := 0, fade_target := 0,
        fade_step_size := 0, fade_interval_ms := 0 }
      { ddcCount := 1, displays := [(0, 0, 1920, 1080)], hwLum := 80,
        readOk := true, writeOk := true }).fade_target = specDimTarget 80 30 :=
  fade_hardware_dim_target _ _ _ _ 80 30 (by decide) (by decide) (by decide) (by decide)
    rfl rfl rfl rfl rfl

/-! ### C5 -/

lemma fade_hardware_restore_params (g : GlobalCfg) (cfg : MonitorCfg) (st : Ctl) (w : World)
    (hr : st.restore_in_progress = false) :
    (fade_hardware g cfg false st w).fade_steps =
      (if min g.overlay_fade_steps 3 ≤ 0 then 1 else min g.overlay_fade_steps 3) ∧
    (fade_hardware g cfg false st w).fade_interval_ms =
      pyInt (max (1/100) (g.overlay_fade_time * (5/100)) /
        (((if min g.overlay_fade_steps 3 ≤ 0 then 1 else min g.overlay_fade_steps 3) : ℤ) : ℚ)
        * 1000) := by
  simp [fade_hardware, hr]

lemma fade_overlay_restore_params (g : GlobalCfg) (current target : ℚ)
    (hdown : target < current) :
    (fade_overlay_params g current target).1 =
      min (if g.overlay_fade_steps ≤ 0 then 1 else g.overlay_fade_steps) 3 ∧
    (fade_overlay_params g current target).2.2 =
      max 1 (pyInt (max (1/100) (g.overlay_fade_time * (5/100)) /
        ((min (if g.overlay_fade_steps ≤ 0 then 1 else g.overlay_fade_steps) 3 : ℤ) : ℚ)
        * 1000)) := by
  simp [fade_overlay_params, hdown]

lemma steps_mul_pyInt_le {s : ℤ} (hs : 1 ≤ s) {d : ℚ} (hd : 0 ≤ d) :
    (s : ℚ) * (pyInt (d / (s : ℚ) * 1000) : ℚ) ≤ d * 1000 := by
  have hspos : (0 : ℚ) < (s : ℚ) := by exact_mod_cast lt_of_lt_of_le Int.zero_lt_one hs
  have harg : (0 : ℚ) ≤ d / (s : ℚ) * 1000 := by positivity
  calc (s : ℚ) * (pyInt (d / (s : ℚ) * 1000) : ℚ)
      ≤ (s : ℚ) * (d / (s : ℚ) * 1000) :=
        mul_le_mul_of_nonneg_left (pyInt_cast_le harg) (le_of_lt hspos)
    _ = d * 1000 := by field_simp

/-- C5: every restore-direction fade — the hardware fade with `down = False`
and the overlay fade toward a strictly lower opacity — uses at most `3` steps,
and its total scheduled time (step count × per-step timer interval, in
milliseconds) is at most `max(0.01, fadeDurationSeconds * 0.05)` seconds,
whatever the configured step count and duration. -/
theorem restore_fades_fast (g : GlobalCfg) (cfg : MonitorCfg) (st : Ctl) (w : World)
    (hr : st.restore_in_progress = false)
    (current target : ℚ) (hdown : target < current) :
    ((fade_hardware g cfg false st w).fade_steps ≤ 3 ∧
     ((fade_hardware g cfg false st w).fade_steps : ℚ) *
       ((fade_hardware g cfg false st w).fade_interval_ms : ℚ) ≤
       max (1/100) (g.overlay_fade_time * (5/100)) * 1000) ∧
    ((fade_overlay_params g current target).1 ≤ 3 ∧
     ((fade_overlay_params g current target).1 : ℚ) *
       ((fade_overlay_params g current target).2.2 : ℚ) ≤
       max (1/100) (g.overlay_fade_time * (5/100)) * 1000) := by
  have hdnn : (0 : ℚ) ≤ max (1/100) (g.overlay_fade_time * (5/100)) :=
    le_trans (by norm_num) (le_max_left _ _)
  constructor
  · obtain ⟨e1, e2⟩ := fade_hardware_restore_params g cfg st w hr
    rw [e1, e2]
    constructor
    · omega
    · exact steps_mul_pyInt_le (by omega) hdnn
  · obtain ⟨e1, e2⟩ := fade_overlay_restore_params g current target hdown
    rw [e1, e2]
    have h11 : (1 : ℤ) ≤ if g.overlay_fade_steps ≤ 0 then 1 else g.overlay_fade_steps := by omega
    set steps : ℤ := min (if g.overlay_fade_steps ≤ 0 then 1 else g.overlay_fade_steps) 3
      with hsteps
    have hs1 : 1 ≤ steps := by omega
    have hs3 : steps ≤ 3 := by omega
    refine ⟨hs3, ?_⟩
    have hs3q : (steps : ℚ) ≤ 3 := by exact_mod_cast hs3
    have hspos : (0 : ℚ) < (steps : ℚ) := by exact_mod_cast lt_of_lt_of_le Int.zero_lt_one hs1
    set x : ℚ := max (1/100) (g.overlay_fade_time * (5/100)) / (steps : ℚ) * 1000 with hx
    rcases le_or_lt (pyInt x) 1 with hc | hc
    · rw [max_eq_left hc]
      push_cast
      have h10 : (10 : ℚ) ≤ max (1/100) (g.overlay_fade_time * (5/100)) * 1000 := by
        have := le_max_left (1/100 : ℚ) (g.overlay_fade_time * (5/100))
        linarith
      linarith
    · rw [max_eq_right (le_of_lt hc)]
      exact steps_mul_pyInt_le hs1 hdnn

/-- C5 witness: duration `2` s and `10` configured steps give a restore fade
of at most `3` steps on both channels. -/
theorem restore_fades_fast_witness :
    (fade_hardware
      { inactivity_limit := 10, overlay_fade_time := 2, overlay_fade_steps := 10,
        awake_mode := false }
      { enable_hardware_dimming := true, enable_software_dimming := true,
        hardware_dimming_level := 30, software_dimming_level := 1/2 }
      false
      { is_dimmed := true, restore_in_progress := false, last_active := 0,
        display_index := 0, ddc_index := 0, hasMonitor := true,
        original_brightness := some 100, left := 0, top := 0, width := 1920, height := 1080,
        overlayShown := true, overlayOpacity := 1/2, fadeActive := false,
        current_fade_step := 0, fade_steps := 0, fade_start := 0, fade_target := 0,
        fade_step_size := 0, fade_interval_ms := 0 }
      { ddcCount := 1, displays := [(0, 0, 1920, 1080)], hwLum := 56,
        readOk := true, writeOk := true }).fade_steps ≤ 3 ∧
    (fade_overlay_params
      { inactivity_limit := 10, overlay_fade_time := 2, overlay_fade_steps := 10,
        awake_mode := false } (1/2) 0).1 ≤ 3 := by
  have h := restore_fades_fast
    { inactivity_limit := 10, overlay_fade_time := 2, overlay_fade_steps := 10,
      awake_mode := false }
    { enable_hardware_dimming := true, enable_software_dimming := true,
      hardware_dimming_level := 30, software_dimming_level := 1/2 }
    { is_dimmed := true, restore_in_progress := false, last_active := 0,
      display_index := 0, ddc_index := 0, hasMonitor := true,
      original_brightness := some 100, left := 0, top := 0, width := 1920, height := 1080,
      overlayShown := true, overlayOpacity := 1/2, fadeActive := false,
      current_fade_step := 0, fade_steps := 0, fade_start := 0, fade_target := 0,
      fade_step_size := 0, fade_interval_ms := 0 }
    { ddcCount := 1, displays := [(0, 0, 1920, 1080)], hwLum := 56,
      readOk := true, writeOk := true }
    rfl (1/2) 0 (by norm_num)
  exact ⟨h.1.1, h.2.1⟩

/-! ### C6 -/

/-- C6: a dim with hardware dimming enabled starts its hardware fade from a
fresh luminance read; when the read fails (or the monitor handle is missing)
it falls back to the cached `original_brightness`, and `fade_hardware` falls
back to `100` when that cache is also unknown. -/
theorem dim_hardware_fade_start (cfg : MonitorCfg) (g : GlobalCfg) (st : Ctl) (w : World)
    (o : ℤ)
    (hhw : cfg.enable_hardware_dimming = true)
    (hdim : st.is_dimmed = false) (hr : st.restore_in_progress = false) :
    (st.original_brightness = some o →
      ((st.hasMonitor = true ∧ w.readOk = true) → (dim cfg g st w).fade_start = w.hwLum) ∧
      (¬(st.hasMonitor = true ∧ w.readOk = true) → (dim cfg g st w).fade_start = o)) ∧
    (st.original_brightness = none → ¬(st.hasMonitor = true ∧ w.readOk = true) →
      (fade_hardware g cfg true st w).fade_start = 100) := by
  constructor
  · intro hsome
    have hds : (dim cfg g st w).fade_start =
        (if st.hasMonitor = true ∧ w.readOk = true then w.hwLum
         else match st.original_brightness with | some ob => ob | none => 100) := by
      simp only [dim, hdim, Bool.false_eq_true, if_false]
      split
      · rename_i hsw
        have hp := fade_overlay_first_preserves g
          { st with is_dimmed := true, overlayShown := true }
          (max 0 (min 1 cfg.software_dimming_level))
        split
        · rw [(fade_hardware_start_target g cfg _ w (hp.2.2.2.1.trans hr)).1,
            hp.1, hp.2.1]
        · rename_i hnof
          exfalso
          refine hnof ⟨hhw, ?_⟩
          rw [hp.2.1]
          show st.original_brightness.isSome = true
          rw [hsome]
          rfl
      · split
        · rw [(fade_hardware_start_target g cfg { st with is_dimmed := true } w hr).1]
        · rename_i hnof
          exfalso
          refine hnof ⟨hhw, ?_⟩
          show st.original_brightness.isSome = true
          rw [hsome]
          rfl
    constructor
    · intro hread
      rw [hds, if_pos hread]
    · intro hnoread
      rw [hds, if_neg hnoread, hsome]
  · intro hnone hnoread
    rw [(fade_hardware_start_target g cfg st w hr).1, if_neg hnoread, hnone]

/-- C6 witness: with a failing read and a cached original of `90`, the dim
fade starts at `90`; with no cache and no read, `fade_hardware` starts at `100`. -/
theorem dim_hardware_fade_start_witness :
    ((dim
      { enable_hardware_dimming := true, enable_software_dimming := false,
        hardware_dimming_level := 30, software_dimming_level := 1/2 }
      { inactivity_limit := 10, overlay_fade_time := 1/2, overlay_fade_steps := 10,
        awake_mode := false }
      { is_dimmed := false, restore_in_progress := false, last_active := 0,
        display_index := 0, ddc_index := 0, hasMonitor := true,
        original_brightness := some 90, left := 0, top := 0, width := 1920, height := 1080,
        overlayShown := false, overlayOpacity := 0, fadeActive := false,
        current_fade_step := 0, fade_steps := 0, fade_start := 0, fade_target := 0,
        fade_step_size := 0, fade_interval_ms := 0 }
      { ddcCount := 1, displays := [(0, 0, 1920, 1080)], hwLum := 80,
        readOk := false, writeOk := true }).fade_start = 90) :=
  ((dim_hardware_fade_start _ _ _ _ 90 rfl rfl rfl).1 rfl).2 (by simp)

/-! ### C3 -/

lemma hwFadeRun_inactive (m : ℕ) (st : Ctl) (w : World) (h : st.fadeActive = false) :
    hwFadeRun m st w = ([], st, w) := by
  cases m with
  | zero => rfl
  | succ m => simp [hwFadeRun, h]

lemma hwFadeRun_length_le (m : ℕ) : ∀ (st : Ctl) (w : World),
    (hwFadeRun m st w).1.length ≤ m := by
  induction m with
  | zero => intro st w; simp [hwFadeRun]
  | succ m ih =>
    intro st w
    rw [hwFadeRun]
    split
    · simpa using Nat.succ_le_succ (ih _ _)
    · simp

lemma overlayRun_length_le (m : ℕ) : ∀ (current target step : ℚ),
    (overlayRun m current target step).1.length ≤ m := by
  induction m with
  | zero => intro c t s; simp [overlayRun]
  | succ m ih =>
    intro c t s
    rw [overlayRun]
    split
    · simpa using Nat.succ_le_succ (ih _ _ _)
    · simp

lemma do_fade_eq (st : Ctl) (w : World) :
    do_fade st w =
      (if (0 < st.fade_step_size ∧ (st.fade_target : ℚ) ≤
             (st.fade_start : ℚ) + st.fade_step_size * ((st.current_fade_step + 1 : ℤ) : ℚ)) ∨
          (st.fade_step_size < 0 ∧
             (st.fade_start : ℚ) + st.fade_step_size * ((st.current_fade_step + 1 : ℤ) : ℚ) ≤
             (st.fade_target : ℚ)) ∨
          st.fade_steps ≤ st.current_fade_step + 1 then
        ({ st with current_fade_step := st.current_fade_step + 1, fadeActive := false,
                   restore_in_progress := false },
         set_brightness st w (pyInt (st.fade_target : ℚ)), pyInt (st.fade_target : ℚ))
      else
        ({ st with current_fade_step := st.current_fade_step + 1 },
         set_brightness st w
           (pyInt ((st.fade_start : ℚ) +
             st.fade_step_size * ((st.current_fade_step + 1 : ℤ) : ℚ))),
         pyInt ((st.fade_start : ℚ) +
           st.fade_step_size * ((st.current_fade_step + 1 : ℤ) : ℚ)))) := rfl

lemma hwFadeRun_spec (m : ℕ) : ∀ (st : Ctl) (w : World),
    st.fadeActive = true →
    st.fade_steps ≤ st.current_fade_step + (m : ℤ) →
    1 ≤ m →
    (st.fade_step_size = 0 → st.fade_start = st.fade_target) →
    (hwFadeRun m st w).2.1.fadeActive = false ∧
    (hwFadeRun m st w).1.getLast? = some st.fade_target ∧
    (∀ v ∈ (hwFadeRun m st w).1,
      (0 ≤ st.fade_step_size → v ≤ st.fade_target) ∧
      (st.fade_step_size ≤ 0 → st.fade_target ≤ v)) := by
  induction m with
  | zero => intro st w _ _ hm; omega
  | succ m ih =>
    intro st w hact hsteps _ hzero
    rw [hwFadeRun]
    rw [if_pos hact]
    by_cases hstop :
        (0 < st.fade_step_size ∧ (st.fade_target : ℚ) ≤
           (st.fade_start : ℚ) + st.fade_step_size * ((st.current_fade_step + 1 : ℤ) : ℚ)) ∨
        (st.fade_step_size < 0 ∧
           (st.fade_start : ℚ) + st.fade_step_size * ((st.current_fade_step + 1 : ℤ) : ℚ) ≤
           (st.fade_target : ℚ)) ∨
        st.fade_steps ≤ st.current_fade_step + 1
    · rw [do_fade_eq, if_pos hstop]
      dsimp only
      rw [hwFadeRun_inactive m _ _ rfl]
      refine ⟨rfl, ?_, ?_⟩
      · show some (pyInt (st.fade_target : ℚ)) = some st.fade_target
        rw [pyInt_intCast]
      · intro v hv
        rw [List.mem_singleton] at hv
        subst hv
        rw [pyInt_intCast]
        exact ⟨fun _ => le_refl _, fun _ => le_refl _⟩
    · rw [do_fade_eq, if_neg hstop]
      dsimp only
      push_neg at hstop
      obtain ⟨hpos, hneg, hrem⟩ := hstop
      rcases m with _ | m
      · omega
      · have hih := ih { st with current_fade_step := st.current_fade_step + 1 }
          (set_brightness st w
            (pyInt ((st.fade_start : ℚ) +
              st.fade_step_size * ((st.current_fade_step + 1 : ℤ) : ℚ))))
          hact (by push_cast at hsteps ⊢; omega) (by omega) hzero
        refine ⟨hih.1, ?_, ?_⟩
        · rcases hcons : (hwFadeRun (m + 1)
              { st with current_fade_step := st.current_fade_step + 1 }
              (set_brightness st w
                (pyInt ((st.fade_start : ℚ) +
                  st.fade_step_size * ((st.current_fade_step + 1 : ℤ) : ℚ))))).1
            with _ | ⟨b, l⟩
          · rw [hcons] at hih
            exact absurd hih.2.1 (by simp)
          · rw [hcons] at hih
            show (_ :: b :: l).getLast? = _
            rw [List.getLast?_cons_cons]
            exact hih.2.1
        · intro v hv
          rcases List.mem_cons.mp hv with hv | hv
          · subst hv
            constructor
            · intro hsz
              rcases lt_or_eq_of_le hsz with hsz | hsz
              · exact pyInt_le_of_le (le_of_lt (hpos hsz))
              · rw [← hsz, zero_mul, add_zero, pyInt_intCast, hzero hsz.symm]
            · intro hsz
              rcases lt_or_eq_of_le hsz with hsz | hsz
              · exact le_pyInt_of_le (le_of_lt (hneg hsz))
              · rw [hsz, zero_mul, add_zero, pyInt_intCast, hzero hsz]
          · exact hih.2.2 v hv

lemma overlayRun_spec (m : ℕ) : ∀ (current target step : ℚ),
    current = target - (m : ℚ) * step → 1 ≤ m →
    (overlayRun m current target step).2 = true ∧
    (∀ v ∈ (overlayRun m current target step).1,
      (0 ≤ step → v ≤ target) ∧ (step ≤ 0 → target ≤ v)) ∧
    (∃ v, (overlayRun m current target step).1.getLast? = some v ∧
      pyAbs (v - target) ≤ 1/100) := by
  induction m with
  | zero => intro c t s _ hm; omega
  | succ m ih =>
    intro c t s hc _
    rcases m with _ | m
    · -- last scheduled step: the tick lands exactly on the target
      have hc' : c = t - s := by rw [hc]; push_cast; ring
      have htick : fadeOverlayTick c t s = (t, false) := by
        unfold fadeOverlayTick
        dsimp only
        have hnv0 : c + s = t := by rw [hc']; ring
        have hend : decide ((1:ℚ)/100 < pyAbs (t - t)) = false := by
          simp only [sub_self]
          rw [decide_eq_false_iff_not]
          norm_num [pyAbs]
        rcases lt_trichotomy s 0 with hs | hs | hs
        · rw [if_pos (Or.inr ⟨hs, le_of_eq hnv0⟩), hend]
        · rw [hnv0, if_neg (by rw [hs]; simp), hend]
        · rw [if_pos (Or.inl ⟨hs, ge_of_eq hnv0⟩), hend]
      rw [overlayRun]
      dsimp only
      rw [htick]
      simp only [Bool.false_eq_true, if_false]
      refine ⟨trivial, ?_, ⟨t, by simp, by norm_num [pyAbs]⟩⟩
      intro v hv
      rw [List.mem_singleton] at hv
      subst hv
      exact ⟨fun _ => le_refl _, fun _ => le_refl _⟩
    · -- at least two scheduled steps remain: no crossing can happen yet
      have hnv0 : c + s = t - ((m + 1 : ℕ) : ℚ) * s := by
        rw [hc]; push_cast; ring
      have hm1 : (1 : ℚ) ≤ ((m + 1 : ℕ) : ℚ) := by exact_mod_cast Nat.succ_le_succ (Nat.zero_le m)
      have htick : fadeOverlayTick c t s =
          (t - ((m + 1 : ℕ) : ℚ) * s,
           decide (1/100 < pyAbs ((t - ((m + 1 : ℕ) : ℚ) * s) - t))) := by
        unfold fadeOverlayTick
        dsimp only
        rw [hnv0]
        rw [if_neg ?_]
        rintro (⟨hs, hge⟩ | ⟨hs, hle⟩)
        · nlinarith
        · nlinarith
      rw [overlayRun]
      dsimp only
      rw [htick]
      by_cases hfar : 1/100 < pyAbs ((t - ((m + 1 : ℕ) : ℚ) * s) - t)
      · rw [if_pos (by simpa using hfar)]
        have hih := ih (t - ((m + 1 : ℕ) : ℚ) * s) t s rfl (Nat.succ_le_succ (Nat.zero_le m))
        refine ⟨hih.1, ?_, ?_⟩
        · intro v hv
          rcases List.mem_cons.mp hv with hv | hv
          · subst hv
            constructor
            · intro hs
              nlinarith
            · intro hs
              nlinarith
          · exact hih.2.1 v hv
        · obtain ⟨v, hlast, hvnear⟩ := hih.2.2
          refine ⟨v, ?_, hvnear⟩
          rcases hcons : (overlayRun (m + 1) (t - ((m + 1 : ℕ) : ℚ) * s) t s).1
            with _ | ⟨b, l⟩
          · rw [hcons] at hlast
            exact absurd hlast (by simp)
          · rw [hcons] at hlast
            show (_ :: b :: l).getLast? = _
            rw [List.getLast?_cons_cons]
            exact hlast
      · rw [if_neg (by simpa using hfar)]
        refine ⟨rfl, ?_, ⟨t - ((m + 1 : ℕ) : ℚ) * s, rfl, le_of_not_lt hfar⟩⟩
        intro v hv
        rw [List.mem_singleton] at hv
        subst hv
        constructor
        · intro hs
          nlinarith
        · intro hs
          nlinarith

/-- C3 counterexample: the overlay fade run to completion does not always
apply exactly `target` on its last tick.  With start opacity `0`, target
`0.3` and `40` configured steps the engine computes step size `0.0075`, and
the chain stops at an applied opacity of `0.2925` — within the `0.01`
stopping tolerance but not equal to the target. -/
theorem overlay_fade_misses_target :
    (fade_overlay_params
      { inactivity_limit := 10, overlay_fade_time := 1/2, overlay_fade_steps := 40,
        awake_mode := false } 0 (3/10)).2.1 = 3/400 ∧
    (overlayRun 40 0 (3/10) (3/400)).1.getLast? = some (117/400) ∧
    (117/400 : ℚ) ≠ 3/10 := by
  refine ⟨?_, ?_, by norm_num⟩
  · norm_num [fade_overlay_params]
  · norm_num [overlayRun, fadeOverlayTick, pyAbs]

/-- C3 amended: run to completion with the step size the engine computes
(`(target − start) / steps`, `steps ≥ 1`), the hardware fade applies exactly
`fade_target` on its last tick, and the overlay fade's last applied opacity is
within the `0.01` stopping tolerance of its target (it is clamped to exactly
the target whenever a step would reach or cross it); neither fade ever applies
a value past its target in the direction of travel, and both stop within
the configured step count (hence within step count + 1 ticks). -/
theorem fade_engine_convergence (st : Ctl) (w : World)
    (hact : st.fadeActive = true) (hk : st.current_fade_step = 0)
    (hn : 1 ≤ st.fade_steps)
    (hss : st.fade_step_size = ((st.fade_target : ℚ) - (st.fade_start : ℚ)) / (st.fade_steps : ℚ))
    (c0 tgt : ℚ) (n2 : ℤ) (hn2 : 1 ≤ n2) :
    ((hwFadeRun st.fade_steps.toNat st w).2.1.fadeActive = false ∧
     (hwFadeRun st.fade_steps.toNat st w).1.getLast? = some st.fade_target ∧
     (hwFadeRun st.fade_steps.toNat st w).1.length ≤ st.fade_steps.toNat ∧
     (∀ v ∈ (hwFadeRun st.fade_steps.toNat st w).1,
       (st.fade_start ≤ st.fade_target → v ≤ st.fade_target) ∧
       (st.fade_target ≤ st.fade_start → st.fade_target ≤ v))) ∧
    ((overlayRun n2.toNat c0 tgt ((tgt - c0) / (n2 : ℚ))).2 = true ∧
     (overlayRun n2.toNat c0 tgt ((tgt - c0) / (n2 : ℚ))).1.length ≤ n2.toNat ∧
     (∀ v ∈ (overlayRun n2.toNat c0 tgt ((tgt - c0) / (n2 : ℚ))).1,
       (c0 ≤ tgt → v ≤ tgt) ∧ (tgt ≤ c0 → tgt ≤ v)) ∧
     (∃ v, (overlayRun n2.toNat c0 tgt ((tgt - c0) / (n2 : ℚ))).1.getLast? = some v ∧
       pyAbs (v - tgt) ≤ 1/100)) := by
  have hnq : (0 : ℚ) < (st.fade_steps : ℚ) := by exact_mod_cast lt_of_lt_of_le Int.zero_lt_one hn
  have hspec := hwFadeRun_spec st.fade_steps.toNat st w hact
    (by rw [hk, Int.toNat_of_nonneg (by omega)]; omega)
    (by omega)
    (by
      intro hz
      rw [hss] at hz
      rcases div_eq_zero_iff.mp hz with hz | hz
      · have : (st.fade_start : ℚ) = (st.fade_target : ℚ) := by linarith
        exact_mod_cast this
      · exact absurd hz (ne_of_gt hnq))
  have hn2q : (0 : ℚ) < (n2 : ℚ) := by exact_mod_cast lt_of_lt_of_le Int.zero_lt_one hn2
  have hospec := overlayRun_spec n2.toNat c0 tgt ((tgt - c0) / (n2 : ℚ))
    (by
      have hcast : ((n2.toNat : ℕ) : ℚ) = (n2 : ℚ) := by
        exact_mod_cast Int.toNat_of_nonneg (show (0 : ℤ) ≤ n2 by omega)
      rw [hcast, mul_comm, div_mul_cancel₀ _ (ne_of_gt hn2q)]
      ring)
    (by omega)
  constructor
  · refine ⟨hspec.1, hspec.2.1, hwFadeRun_length_le _ _ _, ?_⟩
    intro v hv
    have hb := hspec.2.2 v hv
    constructor
    · intro hdir
      refine hb.1 ?_
      rw [hss]
      apply div_nonneg _ (le_of_lt hnq)
      have : (st.fade_start : ℚ) ≤ (st.fade_target : ℚ) := by exact_mod_cast hdir
      linarith
    · intro hdir
      refine hb.2 ?_
      rw [hss]
      apply div_nonpos_of_nonpos_of_nonneg _ (le_of_lt hnq)
      have : (st.fade_target : ℚ) ≤ (st.fade_start : ℚ) := by exact_mod_cast hdir
      linarith
  · refine ⟨hospec.1, overlayRun_length_le _ _ _ _, ?_, hospec.2.2⟩
    intro v hv
    have hb := hospec.2.1 v hv
    constructor
    · intro hdir
      exact hb.1 (div_nonneg (by linarith) (le_of_lt hn2q))
    · intro hdir
      exact hb.2 (div_nonpos_of_nonpos_of_nonneg (by linarith) (le_of_lt hn2q))

/-- C3 witness: a dim fade from `100` to `70` in `10` steps lands exactly on
`70`, and an overlay fade from `0` to `0.5` in `10` steps terminates. -/
theorem fade_engine_convergence_witness :
    (hwFadeRun (10 : ℤ).toNat
      { is_dimmed := true, restore_in_progress := true, last_active := 0,
        display_index := 0, ddc_index := 0, hasMonitor := true,
        original_brightness := some 100, left := 0, top := 0, width := 1920, height := 1080,
        overlayShown := true, overlayOpacity := 0, fadeActive := true,
        current_fade_step := 0, fade_steps := 10, fade_start := 100, fade_target := 70,
        fade_step_size := -3, fade_interval_ms := 50 }
      { ddcCount := 1, displays := [(0, 0, 1920, 1080)], hwLum := 100,
        readOk := true, writeOk := true }).1.getLast? = some 70 ∧
    (overlayRun (10 : ℤ).toNat 0 (1/2) ((1/2 - 0) / ((10 : ℤ) : ℚ))).2 = true := by
  have h := fade_engine_convergence
    { is_dimmed := true, restore_in_progress := true, last_active := 0,
      display_index := 0, ddc_index := 0, hasMonitor := true,
      original_brightness := some 100, left := 0, top := 0, width := 1920, height := 1080,
      overlayShown := true, overlayOpacity := 0, fadeActive := true,
      current_fade_step := 0, fade_steps := 10, fade_start := 100, fade_target := 70,
      fade_step_size := -3, fade_interval_ms := 50 }
    { ddcCount := 1, displays := [(0, 0, 1920, 1080)], hwLum := 100,
      readOk := true, writeOk := true }
    rfl rfl (by decide) (by norm_num) 0 (1/2) 10 (by decide)
  exact ⟨h.1.2.1, h.2.1⟩

end MonitorNap
